import Mathlib

/-!
Shallow embedding of the rointe-sdk API client (rointesdk/rointe_api.py,
rointesdk/device.py, rointesdk/dto.py) in Lean 4.

Modelling conventions:
* `datetime` values are integers (seconds); `timedelta(hours = 1)` is `3600`;
  truncating to the top of the hour is flooring to a multiple of 3600.
* JSON documents returned by `response.json()` are association lists of
  string keys to `JVal` values; a `none` body models a payload that fails to
  parse (in which case `.json()` raises).  Python numeric values are modelled
  as integers (`float(...)` conversion keeps the integer).
* Python exceptions that escape a function are modelled with `Except PyErr`;
  attribute mutations performed before the exception is raised are kept in
  the returned state, exactly as in Python.
* A `requests` response object is truthy iff its status code is below 400.
* The transport is a black box: each HTTP call is fed its outcome
  (`HttpOutcome`, either a raised `RequestException` or a response) from an
  explicit environment parameter.
* The `ApiResponse` namedtuple has three fields; the source sometimes calls
  the constructor with only two positional arguments, which raises a
  `TypeError` at runtime.  Those call sites are modelled by `PyErr.typeError`.
* A namedtuple instance is a non-empty tuple, hence always truthy.
-/

/-- JSON values appearing in responses and PATCH bodies. -/
inductive JVal where
  | s : String → JVal
  | i : Int → JVal
  | b : Bool → JVal
  | arr : List JVal → JVal
  | obj : List (String × JVal) → JVal
deriving Repr

/-- A JSON object: association list from keys to values. -/
def Json : Type := List (String × JVal)

/-- Dictionary lookup, `d[k]` / `k in d`. -/
def jlookup (j : Json) (k : String) : Option JVal :=
  match j with
  | [] => none
  | (k2, v) :: rest => if k2 = k then some v else jlookup rest k

/-- Python truthiness of a JSON value (`not x`). -/
def jvalTruthy : JVal → Bool
  | .s str => str ≠ ""
  | .i n => n ≠ 0
  | .b v => v
  | .arr l => ¬ l.isEmpty
  | .obj l => ¬ l.isEmpty

/-- Python `int(x)` on a JSON value; `none` models a raised error. -/
def pyInt : JVal → Option Int
  | .s str => str.toInt?
  | .i n => some n
  | .b v => some (if v then 1 else 0)
  | .arr _ => none
  | .obj _ => none

/-- Python `float(x)` on a JSON value with numbers modelled as integers. -/
def pyFloat : JVal → Option Int :=
  pyInt

/-- Python exceptions escaping a modelled function. -/
inductive PyErr where
  | keyError : String → PyErr
  | typeError : PyErr
  | valueError : PyErr
  | indexError : PyErr
deriving Repr, DecidableEq

/-- A `requests` response: status code and parsed body (`none` when the body
is not valid JSON, so that `.json()` raises). -/
structure HttpResponse where
  status_code : Nat
  json : Option Json

/-- Truthiness of a `requests` response object: `status_code < 400`. -/
def respTruthy (r : HttpResponse) : Bool :=
  r.status_code < 400

/-- Outcome of one HTTP call: a raised `RequestException` (with the message
interpolated into the error string) or a delivered response. -/
inductive HttpOutcome where
  | exn : String → HttpOutcome
  | resp : HttpResponse → HttpOutcome

/-- The `ApiResponse` namedtuple, with a typed `data` slot. -/
structure ApiResponse (α : Type) where
  success : Bool
  data : Option α
  error_message : Option String

/-- Session state held on the `RointeAPI` object. -/
structure Session where
  username : Option String
  password : Option String
  refresh_token : Option JVal
  auth_token : Option JVal
  auth_token_expire_date : Option Int

/-- Fresh client state right after `__init__(username, password)`. -/
def Session.init (username password : String) : Session :=
  ⟨some username, some password, none, none, none⟩

/-- Truthiness of a token attribute (`not self.auth_token`):
`None` and falsy values such as the empty string are falsy. -/
def tokenTruthy : Option JVal → Bool
  | none => false
  | some v => jvalTruthy v

/-- Embeds `ENERGY_STATS_MAX_TRIES` from settings.py. -/
def ENERGY_STATS_MAX_TRIES : Nat := 5

/-- The value `_refresh_token` actually returns: a `bool` on most paths but
a 3-field `ApiResponse` namedtuple on the `RequestException` path. -/
inductive RefreshRet where
  | b : Bool → RefreshRet
  | resp : ApiResponse Unit → RefreshRet

/-- Python truthiness of `_refresh_token`'s return value; a namedtuple is a
non-empty tuple and therefore always truthy. -/
def RefreshRet.truthy : RefreshRet → Bool
  | .b v => v
  | .resp _ => true

/-- Embeds `RointeAPI._refresh_token`.  Takes the current time and the outcome of
the `requests.post` call.  Returns the (possibly partially mutated) session
together with either a raised exception or the Python return value. -/
def refresh_token_step (now : Int) (s : Session) (out : HttpOutcome) :
    Session × Except PyErr RefreshRet :=
  match out with
  | .exn e =>
      (s, .ok (.resp ⟨false, none, some ("Network error " ++ e)⟩))
  | .resp r =>
      if ¬ respTruthy r then (s, .ok (.b false))
      else if r.status_code ≠ 200 then (s, .ok (.b false))
      else
        match r.json with
        | none => (s, .error .valueError)
        | some j =>
            if j.isEmpty ∨ (jlookup j "id_token").isNone then (s, .ok (.b false))
            else
              match jlookup j "id_token" with
              | none => (s, .ok (.b false))
              | some idt =>
                  let s1 := { s with auth_token := some idt }
                  match jlookup j "expires_in" with
                  | none => (s1, .error (.keyError "expires_in"))
                  | some ei =>
                      match pyInt ei with
                      | none => (s1, .error .valueError)
                      | some n =>
                          let s2 := { s1 with auth_token_expire_date := some (now + n) }
                          match jlookup j "refresh_token" with
                          | none => (s2, .error (.keyError "refresh_token"))
                          | some rt =>
                              ({ s2 with refresh_token := some rt }, .ok (.b true))

/-- Result of `_ensure_valid_auth`: final session, return value (or escaped
exception), and the number of refresh HTTP calls performed. -/
structure EnsureResult where
  session : Session
  result : Except PyErr Bool
  refreshCalls : Nat

/-- Embeds `RointeAPI._ensure_valid_auth`.  `refreshOut` is the outcome the
transport would deliver to `_refresh_token` if it is invoked. -/
def ensure_valid_auth (now : Int) (s : Session) (refreshOut : HttpOutcome) :
    EnsureResult :=
  if ¬ tokenTruthy s.auth_token ∨
      (s.auth_token_expire_date.isSome ∧
        s.auth_token_expire_date.getD 0 < now) then
    match refresh_token_step now s refreshOut with
    | (s1, .error e) => ⟨s1, .error e, 1⟩
    | (s1, .ok rv) =>
        if ¬ rv.truthy then ⟨s1, .ok false, 1⟩ else ⟨s1, .ok true, 1⟩
  else
    ⟨s, .ok true, 0⟩

/-- Payload assembled by a successful `_login_user`. -/
structure LoginData where
  auth_token : JVal
  expires : Int
  refresh_token : JVal

/-- Embeds `RointeAPI._login_user`.  Does not mutate the session. -/
def login_user (now : Int) (out : HttpOutcome) :
    Except PyErr (ApiResponse LoginData) :=
  match out with
  | .exn e => .ok ⟨false, none, some ("Network error " ++ e)⟩
  | .resp r =>
      if r.status_code = 400 then .ok ⟨false, none, some "invalid_auth"⟩
      else if r.status_code ≠ 200 then .ok ⟨false, none, some "response_invalid"⟩
      else
        match r.json with
        | none => .error .valueError
        | some j =>
            if j.isEmpty ∨ (jlookup j "idToken").isNone then
              .ok ⟨false, none, some "invalid_auth_response"⟩
            else
              match jlookup j "idToken" with
              | none => .ok ⟨false, none, some "invalid_auth_response"⟩
              | some idt =>
                  match jlookup j "expiresIn" with
                  | none => .error (.keyError "expiresIn")
                  | some ei =>
                      match pyInt ei with
                      | none => .error .valueError
                      | some n =>
                          match jlookup j "refreshToken" with
                          | none => .error (.keyError "refreshToken")
                          | some rt =>
                              .ok ⟨true, some ⟨idt, now + n, rt⟩, none⟩

/-- Embeds `RointeAPI.initialize_authentication`.  `loginOut` is the outcome of the
credential-verification POST. -/
def initialize_authentication (now : Int) (s : Session) (loginOut : HttpOutcome) :
    Session × Except PyErr (ApiResponse Unit) :=
  match login_user now loginOut with
  | .error e => (s, .error e)
  | .ok resp =>
      if ¬ resp.success then
        ({ s with auth_token := none, refresh_token := none },
          .ok ⟨false, none, resp.error_message⟩)
      else
        match resp.data with
        | none => (s, .error .typeError)
        | some d =>
            ({ s with
                auth_token := some d.auth_token,
                refresh_token := some d.refresh_token,
                auth_token_expire_date := some d.expires,
                username := none,
                password := none },
              .ok ⟨true, none, none⟩)

/-- Embeds `RointeAPI.is_logged_in`. -/
def is_logged_in (s : Session) : Bool :=
  s.auth_token.isSome ∧ s.refresh_token.isSome

/-- Embeds `RointeAPI.get_local_id`.  `getOut` is the outcome of the account-info
POST; `refreshOut` feeds `_refresh_token` if `_ensure_valid_auth` needs it. -/
def get_local_id (now : Int) (s : Session) (refreshOut getOut : HttpOutcome) :
    Session × Except PyErr (ApiResponse JVal) :=
  match ensure_valid_auth now s refreshOut with
  | ⟨s1, .error e, _⟩ => (s1, .error e)
  | ⟨s1, .ok false, _⟩ => (s1, .ok ⟨false, none, some "Invalid authentication."⟩)
  | ⟨s1, .ok true, _⟩ =>
      match getOut with
      | .exn e => (s1, .ok ⟨false, none, some ("Network error " ++ e)⟩)
      | .resp r =>
          if ¬ respTruthy r then
            (s1, .ok ⟨false, none, some "No response from API call to get_local_id()"⟩)
          else if r.status_code ≠ 200 then
            (s1, .ok ⟨false, none,
              some ("get_local_id() returned " ++ toString r.status_code)⟩)
          else
            match r.json with
            | none => (s1, .error .valueError)
            | some j =>
                match jlookup j "users" with
                | none => (s1, .error (.keyError "users"))
                | some (.arr us) =>
                    match us.get? 0 with
                    | none => (s1, .error .indexError)
                    | some (.obj u) =>
                        match jlookup u "localId" with
                        | none => (s1, .error (.keyError "localId"))
                        | some lid => (s1, .ok ⟨true, some lid, none⟩)
                    | some _ => (s1, .error .typeError)
                | some _ => (s1, .error .typeError)

/-- Collect `{key: response_json[key]["location"]}` over the keys of the
response, as the loop in `get_installations` does. -/
def collectLocations : Json → Except PyErr (List (String × JVal))
  | [] => .ok []
  | (k, .obj v) :: rest =>
      match jlookup v "location" with
      | none => .error (.keyError "location")
      | some loc =>
          match collectLocations rest with
          | .error e => .error e
          | .ok tl => .ok ((k, loc) :: tl)
  | (_, _) :: _ => .error .typeError

/-- Embeds `RointeAPI.get_installations`.  The falsy-response branch calls the
3-field `ApiResponse` constructor with only two arguments, raising
`TypeError`. -/
def get_installations (now : Int) (s : Session) (refreshOut getOut : HttpOutcome) :
    Session × Except PyErr (ApiResponse (List (String × JVal))) :=
  match ensure_valid_auth now s refreshOut with
  | ⟨s1, .error e, _⟩ => (s1, .error e)
  | ⟨s1, .ok false, _⟩ => (s1, .ok ⟨false, none, some "Invalid authentication."⟩)
  | ⟨s1, .ok true, _⟩ =>
      match getOut with
      | .exn e => (s1, .ok ⟨false, none, some ("Network error " ++ e)⟩)
      | .resp r =>
          if ¬ respTruthy r then (s1, .error .typeError)
          else if r.status_code ≠ 200 then
            (s1, .ok ⟨false, none,
              some ("get_installations() returned " ++ toString r.status_code)⟩)
          else
            match r.json with
            | none => (s1, .error .valueError)
            | some j =>
                if j.length = 0 then
                  (s1, .ok ⟨false, none, some "No Rointe installations found."⟩)
                else
                  match collectLocations j with
                  | .error e => (s1, .error e)
                  | .ok installations => (s1, .ok ⟨true, some installations, none⟩)

/-- Embeds `RointeAPI.get_installation_by_id`.  The falsy-response branch calls the
`ApiResponse` constructor with only two arguments, raising `TypeError`. -/
def get_installation_by_id (now : Int) (s : Session)
    (installation_id : String) (refreshOut getOut : HttpOutcome) :
    Session × Except PyErr (ApiResponse JVal) :=
  match ensure_valid_auth now s refreshOut with
  | ⟨s1, .error e, _⟩ => (s1, .error e)
  | ⟨s1, .ok false, _⟩ => (s1, .ok ⟨false, none, some "Invalid authentication."⟩)
  | ⟨s1, .ok true, _⟩ =>
      match getOut with
      | .exn e => (s1, .ok ⟨false, none, some ("Network error " ++ e)⟩)
      | .resp r =>
          if ¬ respTruthy r then (s1, .error .typeError)
          else if r.status_code ≠ 200 then
            (s1, .ok ⟨false, none,
              some ("get_installation_by_id() returned " ++ toString r.status_code)⟩)
          else
            match r.json with
            | none => (s1, .error .valueError)
            | some j =>
                if j.length = 0 ∨ (jlookup j installation_id).isNone then
                  (s1, .ok ⟨false, none, some "No Rointe installation found."⟩)
                else
                  match jlookup j installation_id with
                  | none => (s1, .ok ⟨false, none, some "No Rointe installation found."⟩)
                  | some v => (s1, .ok ⟨true, some v, none⟩)

/-- Embeds `RointeAPI.get_device`.  The falsy-response branch calls the
`ApiResponse` constructor with only two arguments, raising `TypeError`. -/
def get_device (now : Int) (s : Session) (refreshOut getOut : HttpOutcome) :
    Session × Except PyErr (ApiResponse Json) :=
  match ensure_valid_auth now s refreshOut with
  | ⟨s1, .error e, _⟩ => (s1, .error e)
  | ⟨s1, .ok false, _⟩ => (s1, .ok ⟨false, none, some "Invalid authentication."⟩)
  | ⟨s1, .ok true, _⟩ =>
      match getOut with
      | .exn e => (s1, .ok ⟨false, none, some ("Network error " ++ e)⟩)
      | .resp r =>
          if ¬ respTruthy r then (s1, .error .typeError)
          else if r.status_code ≠ 200 then
            (s1, .ok ⟨false, none,
              some ("get_device() returned " ++ toString r.status_code)⟩)
          else
            match r.json with
            | none => (s1, .error .valueError)
            | some j => (s1, .ok ⟨true, some j, none⟩)

/-- Embeds `EnergyConsumptionData` from dto.py.  The `created` field (which the
source fills with the un-called function object `datetime.now`) is omitted
as it carries no information used anywhere. -/
structure EnergyConsumptionData where
  start : Int
  end_ : Int
  kwh : Int
  effective_power : Int
deriving Repr

/-- Embeds `RointeAPI._retrieve_hour_energy_stats` for one target hour.  The
falsy-response branch calls the `ApiResponse` constructor with only two
arguments, raising `TypeError`. -/
def retrieve_hour_energy_stats (now : Int) (s : Session)
    (refreshOut getOut : HttpOutcome) (target : Int) :
    Session × Except PyErr (ApiResponse EnergyConsumptionData) :=
  match ensure_valid_auth now s refreshOut with
  | ⟨s1, .error e, _⟩ => (s1, .error e)
  | ⟨s1, .ok false, _⟩ => (s1, .ok ⟨false, none, some "Invalid authentication."⟩)
  | ⟨s1, .ok true, _⟩ =>
      match getOut with
      | .exn e => (s1, .ok ⟨false, none, some ("Network error " ++ e)⟩)
      | .resp r =>
          if ¬ respTruthy r then (s1, .error .typeError)
          else if r.status_code ≠ 200 then
            (s1, .ok ⟨false, none,
              some ("_retrieve_hour_energy_stats() returned " ++ toString r.status_code)⟩)
          else
            match r.json with
            | none => (s1, .error .valueError)
            | some j =>
                if j.isEmpty ∨ j.length = 0 then
                  (s1, .ok ⟨false, none, some "No energy stats found."⟩)
                else
                  match jlookup j "kw_h" with
                  | none => (s1, .error (.keyError "kw_h"))
                  | some kv =>
                      match pyFloat kv with
                      | none => (s1, .error .valueError)
                      | some kwh =>
                          match jlookup j "effective_power" with
                          | none => (s1, .error (.keyError "effective_power"))
                          | some pv =>
                              match pyFloat pv with
                              | none => (s1, .error .valueError)
                              | some ep =>
                                  (s1, .ok ⟨true,
                                    some ⟨target, target + 3600, kwh, ep⟩, none⟩)

/-- Truncate a timestamp to the top of its hour
(`now.replace(minute=0, second=0, microsecond=0)`). -/
def hourFloor (t : Int) : Int := t - t % 3600

/-- The retry loop of `get_latest_energy_stats`, with the remaining attempt
budget as fuel.  `envRefresh` and `envGet` give, per target hour, the
outcomes the transport delivers to `_ensure_valid_auth`'s refresh call and
to the energy GET.  The third component counts fetch attempts performed. -/
def energy_stats_loop (now : Int) (envRefresh envGet : Int → HttpOutcome) :
    Nat → Session → Int →
    Session × Except PyErr (ApiResponse EnergyConsumptionData) × Nat
  | 0, s, _ => (s, .ok ⟨false, none, some "Max tries exceeded."⟩, 0)
  | n + 1, s, target =>
      match retrieve_hour_energy_stats now s (envRefresh target) (envGet target) target with
      | (s1, .error e) => (s1, .error e, 1)
      | (s1, .ok resp) =>
          if resp.error_message = some "No energy stats found." then
            match energy_stats_loop now envRefresh envGet n s1 (target - 3600) with
            | (s2, r2, c) => (s2, r2, c + 1)
          else (s1, .ok resp, 1)

/-- Embeds `RointeAPI.get_latest_energy_stats` (the `device_id` only shapes URLs,
which are not modelled). -/
def get_latest_energy_stats (now : Int) (s : Session)
    (envRefresh envGet : Int → HttpOutcome) (device_id : String) :
    Session × Except PyErr (ApiResponse EnergyConsumptionData) × Nat :=
  let _ := device_id
  energy_stats_loop now envRefresh envGet ENERGY_STATS_MAX_TRIES s (hourFloor now)

/-- Embeds `ScheduleMode` from model.py. -/
inductive ScheduleMode where
  | COMFORT
  | ECO
  | NONE
deriving Repr, DecidableEq

/-- The fields of `RointeDevice` (device.py) that the command operations
read.  Temperatures are modelled as integers. -/
structure RointeDevice where
  id : String
  mode : String
  comfort_temp : Int
  eco_temp : Int
  ice_temp : Int
  ice_mode : Bool
  schedule : List String

/-- Embeds `RointeDevice.get_current_schedule_mode`, with the weekday and hour that
`utils.now()` would yield passed explicitly.  Out-of-range indexing raises. -/
def get_current_schedule_mode (d : RointeDevice) (day hour : Nat) :
    Except PyErr ScheduleMode :=
  match d.schedule.get? day with
  | none => .error .indexError
  | some row =>
      match row.data.get? hour with
      | none => .error .indexError
      | some c =>
          .ok (if c = 'C' then .COMFORT else if c = 'E' then .ECO else .NONE)

/-- Python dict assignment `body[k] = v`: replace in place or append. -/
def setKey (j : Json) (k : String) (v : JVal) : Json :=
  match j with
  | [] => [(k, v)]
  | (k2, v2) :: rest =>
      if k2 = k then (k, v) :: rest else (k2, v2) :: setKey rest k v

/-- Embeds `RointeAPI._send_patch_request`.  Stamps the body with the
"last synced from app" millisecond timestamp, then issues the PATCH.
Returns the `ApiResponse` and the body actually transmitted. -/
def send_patch_request (now : Int) (body : Json) (out : HttpOutcome) :
    ApiResponse Unit × Json :=
  let stamped := setKey body "last_sync_datetime_app" (.i (now * 1000))
  match out with
  | .exn e => (⟨false, none, some ("Network error " ++ e)⟩, stamped)
  | .resp r =>
      if ¬ respTruthy r then (⟨false, none, none⟩, stamped)
      else if r.status_code ≠ 200 then (⟨false, none, none⟩, stamped)
      else (⟨true, none, none⟩, stamped)

/-- Embeds `RointeAPI.set_device_temp`.  `patch` gives the outcome of the n-th
PATCH call; the last component lists the transmitted PATCH bodies in order. -/
def set_device_temp (now : Int) (s : Session) (device : RointeDevice)
    (new_temp : Int) (refreshOut : HttpOutcome) (patch : Nat → HttpOutcome) :
    Session × Except PyErr (ApiResponse Unit) × List Json :=
  match ensure_valid_auth now s refreshOut with
  | ⟨s1, .error e, _⟩ => (s1, .error e, [])
  | ⟨s1, .ok false, _⟩ => (s1, .ok ⟨false, none, some "Invalid authentication."⟩, [])
  | ⟨s1, .ok true, _⟩ =>
      let _ := device.id
      match send_patch_request now
          [("temp", .i new_temp), ("mode", .s "manual"), ("power", .b true)]
          (patch 0) with
      | (r, b) => (s1, .ok r, [b])

/-- Embeds `RointeAPI.set_device_preset`.  Only `"comfort"`, `"eco"` and the
capitalised `"Anti-frost"` select a body; every other preset (including
`"off"`) falls through with the empty body, and the PATCH is still sent. -/
def set_device_preset (now : Int) (s : Session) (device : RointeDevice)
    (preset_mode : String) (refreshOut : HttpOutcome) (patch : Nat → HttpOutcome) :
    Session × Except PyErr (ApiResponse Unit) × List Json :=
  match ensure_valid_auth now s refreshOut with
  | ⟨s1, .error e, _⟩ => (s1, .error e, [])
  | ⟨s1, .ok false, _⟩ => (s1, .ok ⟨false, none, some "Invalid authentication."⟩, [])
  | ⟨s1, .ok true, _⟩ =>
      let body : Json :=
        if preset_mode = "comfort" then
          [("power", .b true), ("mode", .s "manual"),
            ("temp", .i device.comfort_temp), ("status", .s "comfort")]
        else if preset_mode = "eco" then
          [("power", .b true), ("mode", .s "manual"),
            ("temp", .i device.eco_temp), ("status", .s "eco")]
        else if preset_mode = "Anti-frost" then
          [("power", .b true), ("mode", .s "manual"),
            ("temp", .i device.ice_temp), ("status", .s "ice")]
        else []
      match send_patch_request now body (patch 0) with
      | (r, b) => (s1, .ok r, [b])

/-- Embeds `RointeAPI.set_device_mode`.  `day`/`hour` are the weekday and hour that
`utils.now()` would yield inside `get_current_schedule_mode` on the `auto`
path. -/
def set_device_mode (now : Int) (s : Session) (device : RointeDevice)
    (hvac_mode : String) (day hour : Nat)
    (refreshOut : HttpOutcome) (patch : Nat → HttpOutcome) :
    Session × Except PyErr (ApiResponse Unit) × List Json :=
  match ensure_valid_auth now s refreshOut with
  | ⟨s1, .error e, _⟩ => (s1, .error e, [])
  | ⟨s1, .ok false, _⟩ => (s1, .ok ⟨false, none, some "Invalid authentication."⟩, [])
  | ⟨s1, .ok true, _⟩ =>
      if hvac_mode = "off" then
        if device.mode = "auto" then
          match send_patch_request now
              [("power", .b false), ("mode", .s "auto"), ("status", .s "off")]
              (patch 0) with
          | (r, b) => (s1, .ok r, [b])
        else
          match send_patch_request now [("temp", .i 20)] (patch 0) with
          | (r1, b1) =>
              if ¬ r1.success then (s1, .ok r1, [b1])
              else
                match send_patch_request now
                    [("power", .b false), ("mode", .s "manual"), ("status", .s "off")]
                    (patch 1) with
                | (r2, b2) => (s1, .ok r2, [b1, b2])
      else if hvac_mode = "heat" then
        match send_patch_request now [("temp", .i device.comfort_temp)] (patch 0) with
        | (r1, b1) =>
            if ¬ r1.success then (s1, .ok r1, [b1])
            else
              match send_patch_request now
                  [("mode", .s "manual"), ("power", .b true), ("status", .s "none")]
                  (patch 1) with
              | (r2, b2) => (s1, .ok r2, [b1, b2])
      else if hvac_mode = "auto" then
        match get_current_schedule_mode device day hour with
        | .error e => (s1, .error e, [])
        | .ok current_mode =>
            let body : Json :=
              if current_mode = .COMFORT then [("temp", .i device.comfort_temp)]
              else if current_mode = .ECO then [("temp", .i device.eco_temp)]
              else if device.ice_mode then [("temp", .i device.ice_temp)]
              else [("temp", .i 20)]
            match send_patch_request now body (patch 0) with
            | (r1, b1) =>
                if ¬ r1.success then (s1, .ok r1, [b1])
                else
                  match send_patch_request now
                      [("mode", .s "auto"), ("power", .b true)] (patch 1) with
                  | (r2, b2) => (s1, .ok r2, [b1, b2])
      else
        (s1, .ok ⟨false, none, some ("Invalid HVAC Mode " ++ hvac_mode ++ ".")⟩, [])

/-- The session holds a truthy token whose expiry has not passed at `now`,
so `_ensure_valid_auth` will succeed without any network call. -/
def validAt (s : Session) (now : Int) : Prop :=
  tokenTruthy s.auth_token = true ∧
    ¬ (s.auth_token_expire_date.isSome = true ∧
        s.auth_token_expire_date.getD 0 < now)

instance (s : Session) (now : Int) : Decidable (validAt s now) := by
  unfold validAt
  infer_instance

theorem ensure_valid_auth_noop {now : Int} {s : Session} (out : HttpOutcome)
    (h : validAt s now) :
    ensure_valid_auth now s out = ⟨s, .ok true, 0⟩ := by
  unfold ensure_valid_auth
  rw [if_neg]
  push_neg
  exact ⟨h.1, fun hs => not_lt.mp (fun hlt => h.2 ⟨hs, hlt⟩)⟩

theorem retrieve_notfound {now : Int} {s : Session} (rout : HttpOutcome)
    {gout : HttpOutcome} {target : Int} (hv : validAt s now)
    (hg : gout = .resp ⟨200, some []⟩) :
    retrieve_hour_energy_stats now s rout gout target
      = (s, .ok ⟨false, none, some "No energy stats found."⟩) := by
  subst hg
  simp [retrieve_hour_energy_stats, ensure_valid_auth_noop _ hv, respTruthy]

theorem retrieve_found {now : Int} {s : Session} (rout : HttpOutcome)
    {gout : HttpOutcome} {target a b : Int} (hv : validAt s now)
    (hg : gout = .resp ⟨200, some [("kw_h", .i a), ("effective_power", .i b)]⟩) :
    retrieve_hour_energy_stats now s rout gout target
      = (s, .ok ⟨true, some ⟨target, target + 3600, a, b⟩, none⟩) := by
  subst hg
  simp [retrieve_hour_energy_stats, ensure_valid_auth_noop _ hv, respTruthy,
    jlookup, pyFloat, pyInt]

theorem retrieve_exn {now : Int} {s : Session} (rout : HttpOutcome)
    {gout : HttpOutcome} {target : Int} {e : String} (hv : validAt s now)
    (hg : gout = .exn e) :
    retrieve_hour_energy_stats now s rout gout target
      = (s, .ok ⟨false, none, some ("Network error " ++ e)⟩) := by
  subst hg
  simp [retrieve_hour_energy_stats, ensure_valid_auth_noop _ hv]

theorem retrieve_non200 {now : Int} {s : Session} (rout : HttpOutcome)
    {gout : HttpOutcome} {target : Int} {r : HttpResponse} (hv : validAt s now)
    (hg : gout = .resp r) (ht : respTruthy r = true) (hs : r.status_code ≠ 200) :
    retrieve_hour_energy_stats now s rout gout target
      = (s, .ok ⟨false, none,
          some ("_retrieve_hour_energy_stats() returned " ++ toString r.status_code)⟩) := by
  subst hg
  simp [retrieve_hour_energy_stats, ensure_valid_auth_noop _ hv, ht, hs]

theorem retrieve_authfail {now : Int} {s : Session} {rout : HttpOutcome}
    (gout : HttpOutcome) {target : Int} (hv : tokenTruthy s.auth_token = false)
    (hr : rout = .resp ⟨400, some []⟩) :
    retrieve_hour_energy_stats now s rout gout target
      = (s, .ok ⟨false, none, some "Invalid authentication."⟩) := by
  subst hr
  simp [retrieve_hour_energy_stats, ensure_valid_auth, hv, refresh_token_step,
    respTruthy, RefreshRet.truthy]

theorem network_error_ne (e : String) :
    "Network error " ++ e ≠ "No energy stats found." := by
  intro h
  have h2 := congrArg String.data h
  simp [String.data_append] at h2

theorem returned_msg_ne (str : String) :
    "_retrieve_hour_energy_stats() returned " ++ str ≠ "No energy stats found." := by
  intro h
  have h2 := congrArg String.data h
  simp [String.data_append] at h2

theorem loop_zero (now : Int) (envR envG : Int → HttpOutcome) (s : Session)
    (target : Int) :
    energy_stats_loop now envR envG 0 s target
      = (s, .ok ⟨false, none, some "Max tries exceeded."⟩, 0) := rfl

theorem loop_step_notfound {now : Int} {envR : Int → HttpOutcome}
    {envG : Int → HttpOutcome} {s : Session} {target : Int}
    (hv : validAt s now) (hg : envG target = .resp ⟨200, some []⟩) (n : Nat) :
    energy_stats_loop now envR envG (n + 1) s target
      = ((energy_stats_loop now envR envG n s (target - 3600)).1,
          (energy_stats_loop now envR envG n s (target - 3600)).2.1,
          (energy_stats_loop now envR envG n s (target - 3600)).2.2 + 1) := by
  conv_lhs => rw [energy_stats_loop]
  rw [retrieve_notfound (envR target) hv hg]
  simp

theorem loop_step_found {now : Int} {envR : Int → HttpOutcome}
    {envG : Int → HttpOutcome} {s : Session} {target a b : Int}
    (hv : validAt s now)
    (hg : envG target = .resp ⟨200, some [("kw_h", .i a), ("effective_power", .i b)]⟩)
    (n : Nat) :
    energy_stats_loop now envR envG (n + 1) s target
      = (s, .ok ⟨true, some ⟨target, target + 3600, a, b⟩, none⟩, 1) := by
  conv_lhs => rw [energy_stats_loop]
  rw [retrieve_found (envR target) hv hg]
  simp

theorem loop_step_exn {now : Int} {envR : Int → HttpOutcome}
    {envG : Int → HttpOutcome} {s : Session} {target : Int} {e : String}
    (hv : validAt s now) (hg : envG target = .exn e) (n : Nat) :
    energy_stats_loop now envR envG (n + 1) s target
      = (s, .ok ⟨false, none, some ("Network error " ++ e)⟩, 1) := by
  conv_lhs => rw [energy_stats_loop]
  rw [retrieve_exn (envR target) hv hg]
  simp [network_error_ne e]

theorem loop_step_non200 {now : Int} {envR : Int → HttpOutcome}
    {envG : Int → HttpOutcome} {s : Session} {target : Int} {r : HttpResponse}
    (hv : validAt s now) (hg : envG target = .resp r)
    (ht : respTruthy r = true) (hs : r.status_code ≠ 200) (n : Nat) :
    energy_stats_loop now envR envG (n + 1) s target
      = (s, .ok ⟨false, none,
          some ("_retrieve_hour_energy_stats() returned " ++ toString r.status_code)⟩, 1) := by
  conv_lhs => rw [energy_stats_loop]
  rw [retrieve_non200 (envR target) hv hg ht hs]
  simp [returned_msg_ne (toString r.status_code)]

theorem loop_step_authfail {now : Int} {envR : Int → HttpOutcome}
    {envG : Int → HttpOutcome} {s : Session} {target : Int}
    (hv : tokenTruthy s.auth_token = false)
    (hr : envR target = .resp ⟨400, some []⟩) (n : Nat) :
    energy_stats_loop now envR envG (n + 1) s target
      = (s, .ok ⟨false, none, some "Invalid authentication."⟩, 1) := by
  conv_lhs => rw [energy_stats_loop]
  rw [retrieve_authfail (envG target) hv hr]
  simp

/-- C2: the claim states that every failing `refresh()` (non-200, transport
failure, or missing fields) leaves the session untouched AND returns false.
The session-preservation half holds, but on a transport failure
(`RequestException`) the code returns the 3-field `ApiResponse` namedtuple —
a truthy value, not `False` — contradicting the claim and the function's own
`-> bool` annotation.  Evaluated here at the failing input: a session holding
tokens, refresh raising a transport exception. -/
theorem C2_refresh_transport_divergence :
    refresh_token_step 2000
        ⟨none, none, some (.s "rt"), some (.s "at"), some 1000⟩ (.exn "conn reset")
      = (⟨none, none, some (.s "rt"), some (.s "at"), some 1000⟩,
          .ok (.resp ⟨false, none, some "Network error conn reset"⟩)) ∧
    RefreshRet.truthy (.resp ⟨false, none, some "Network error conn reset"⟩) = true :=
  ⟨rfl, rfl⟩

/-- C3: the claim states `_ensure_valid_auth` returns true iff the token is
present and unexpired, and otherwise returns exactly `_refresh_token`'s
success.  Evaluated at the failing input — no access token, refresh hitting a
transport exception — the code returns `True` (the refresh return value is a
truthy namedtuple), even though the session still holds no token, so the
claimed iff and the claimed propagation of refresh's success both fail. -/
theorem C3_ensure_valid_divergence :
    ensure_valid_auth 0 ⟨some "u", some "p", some (.s "rt"), none, none⟩
        (.exn "conn reset")
      = ⟨⟨some "u", some "p", some (.s "rt"), none, none⟩, .ok true, 1⟩ := rfl

/-- C8: the claim states no public operation lets a raised fault cross the
public boundary.  At the failing input — `get_installations` receiving a
falsy (status 500) response with a valid session — the code executes
`ApiResponse(False, "No response from API in get_installations()")`, a
2-argument call to the 3-field namedtuple constructor, which raises
`TypeError`; similarly `get_local_id` raises `KeyError` on a 200 response
whose JSON lacks the `users` key. -/
theorem C8_public_boundary_typeerror :
    get_installations 0 ⟨none, none, some (.s "rt"), some (.s "at"), none⟩
        (.exn "unused") (.resp ⟨500, some []⟩)
      = (⟨none, none, some (.s "rt"), some (.s "at"), none⟩, .error .typeError) ∧
    get_local_id 0 ⟨none, none, some (.s "rt"), some (.s "at"), none⟩
        (.exn "unused") (.resp ⟨200, some [("kind", .s "identitytoolkit")]⟩)
      = (⟨none, none, some (.s "rt"), some (.s "at"), none⟩,
          .error (.keyError "users")) :=
  ⟨rfl, rfl⟩

/-- C1: for every device id, `get_latest_energy_stats` searches backwards
from `now` truncated to the top of the hour, retrying (one hour earlier per
attempt, 5 attempts max) exactly when the per-hour fetch reports the sample
absent.  With hours H, H-1, H-2 absent and H-3 found, the returned record's
interval start is H-3 and exactly 4 fetch attempts are made; with all 5
hours absent the distinct max-tries error results after 5 attempts; a
transport exception, a non-200 response, or an authentication failure is
returned immediately after a single attempt. -/
theorem C1_energy_stats_backward_search
    (now : Int) (s s2 : Session) (device_id : String)
    (envR envR2 envG1 envG2 envG3 envG4 envG5 : Int → HttpOutcome)
    (a b : Int) (e : String) (r4 : HttpResponse)
    (hv : validAt s now)
    (hA0 : envG1 (hourFloor now) = .resp ⟨200, some []⟩)
    (hA1 : envG1 (hourFloor now - 3600) = .resp ⟨200, some []⟩)
    (hA2 : envG1 (hourFloor now - 7200) = .resp ⟨200, some []⟩)
    (hA3 : envG1 (hourFloor now - 10800)
      = .resp ⟨200, some [("kw_h", .i a), ("effective_power", .i b)]⟩)
    (hB0 : envG2 (hourFloor now) = .resp ⟨200, some []⟩)
    (hB1 : envG2 (hourFloor now - 3600) = .resp ⟨200, some []⟩)
    (hB2 : envG2 (hourFloor now - 7200) = .resp ⟨200, some []⟩)
    (hB3 : envG2 (hourFloor now - 10800) = .resp ⟨200, some []⟩)
    (hB4 : envG2 (hourFloor now - 14400) = .resp ⟨200, some []⟩)
    (hC : envG3 (hourFloor now) = .exn e)
    (hD : envG4 (hourFloor now) = .resp r4)
    (hD1 : respTruthy r4 = true) (hD2 : r4.status_code ≠ 200)
    (hE : tokenTruthy s2.auth_token = false)
    (hE2 : envR2 (hourFloor now) = .resp ⟨400, some []⟩) :
    get_latest_energy_stats now s envR envG1 device_id
      = (s, .ok ⟨true,
          some ⟨hourFloor now - 10800, hourFloor now - 10800 + 3600, a, b⟩,
          none⟩, 4) ∧
    get_latest_energy_stats now s envR envG2 device_id
      = (s, .ok ⟨false, none, some "Max tries exceeded."⟩, 5) ∧
    get_latest_energy_stats now s envR envG3 device_id
      = (s, .ok ⟨false, none, some ("Network error " ++ e)⟩, 1) ∧
    get_latest_energy_stats now s envR envG4 device_id
      = (s, .ok ⟨false, none,
          some ("_retrieve_hour_energy_stats() returned " ++ toString r4.status_code)⟩, 1) ∧
    get_latest_energy_stats now s2 envR2 envG5 device_id
      = (s2, .ok ⟨false, none, some "Invalid authentication."⟩, 1) := by
  have e1 : hourFloor now - 3600 - 3600 = hourFloor now - 7200 := by ring
  have e2 : hourFloor now - 3600 - 3600 - 3600 = hourFloor now - 10800 := by ring
  have e3 : hourFloor now - 3600 - 3600 - 3600 - 3600 = hourFloor now - 14400 := by
    ring
  have hA2x : envG1 (hourFloor now - 3600 - 3600) = .resp ⟨200, some []⟩ := by
    rw [e1]; exact hA2
  have hA3x : envG1 (hourFloor now - 3600 - 3600 - 3600)
      = .resp ⟨200, some [("kw_h", .i a), ("effective_power", .i b)]⟩ := by
    rw [e2]; exact hA3
  have hB2x : envG2 (hourFloor now - 3600 - 3600) = .resp ⟨200, some []⟩ := by
    rw [e1]; exact hB2
  have hB3x : envG2 (hourFloor now - 3600 - 3600 - 3600) = .resp ⟨200, some []⟩ := by
    rw [e2]; exact hB3
  have hB4x : envG2 (hourFloor now - 3600 - 3600 - 3600 - 3600)
      = .resp ⟨200, some []⟩ := by
    rw [e3]; exact hB4
  refine ⟨?_, ?_, ?_, ?_, ?_⟩
  · show energy_stats_loop now envR envG1 5 s (hourFloor now) = _
    rw [show (5 : Nat) = 4 + 1 from rfl, loop_step_notfound hv hA0,
        show (4 : Nat) = 3 + 1 from rfl, loop_step_notfound hv hA1,
        show (3 : Nat) = 2 + 1 from rfl, loop_step_notfound hv hA2x,
        show (2 : Nat) = 1 + 1 from rfl, loop_step_found hv hA3x, e2]
  · show energy_stats_loop now envR envG2 5 s (hourFloor now) = _
    rw [show (5 : Nat) = 4 + 1 from rfl, loop_step_notfound hv hB0,
        show (4 : Nat) = 3 + 1 from rfl, loop_step_notfound hv hB1,
        show (3 : Nat) = 2 + 1 from rfl, loop_step_notfound hv hB2x,
        show (2 : Nat) = 1 + 1 from rfl, loop_step_notfound hv hB3x,
        show (1 : Nat) = 0 + 1 from rfl, loop_step_notfound hv hB4x, loop_zero]
  · show energy_stats_loop now envR envG3 5 s (hourFloor now) = _
    rw [show (5 : Nat) = 4 + 1 from rfl, loop_step_exn hv hC]
  · show energy_stats_loop now envR envG4 5 s (hourFloor now) = _
    rw [show (5 : Nat) = 4 + 1 from rfl, loop_step_non200 hv hD hD1 hD2]
  · show energy_stats_loop now envR2 envG5 5 s2 (hourFloor now) = _
    rw [show (5 : Nat) = 4 + 1 from rfl, loop_step_authfail hE hE2]

/-- Concrete witness session with a truthy token and no expiry. -/
def c1Session : Session := ⟨none, none, some (.s "r"), some (.s "t"), none⟩

/-- Concrete witness session that was never authenticated. -/
def c1Session2 : Session := ⟨some "u", some "p", none, none, none⟩

/-- Witness refresh environment (never reached). -/
def c1EnvR : Int → HttpOutcome := fun _ => .exn "unused"

/-- Witness refresh environment answering 400, so refresh fails cleanly. -/
def c1EnvR2 : Int → HttpOutcome := fun _ => .resp ⟨400, some []⟩

/-- Witness energy GET environment: sample present only at hour -3600. -/
def c1EnvA : Int → HttpOutcome := fun t =>
  if t = -3600 then
    .resp ⟨200, some [("kw_h", .i 5), ("effective_power", .i 7)]⟩
  else .resp ⟨200, some []⟩

/-- Witness energy GET environment: sample absent at every hour. -/
def c1EnvB : Int → HttpOutcome := fun _ => .resp ⟨200, some []⟩

/-- Witness energy GET environment: transport exception at every hour. -/
def c1EnvC : Int → HttpOutcome := fun _ => .exn "boom"

/-- Witness energy GET environment: truthy non-200 response at every hour. -/
def c1EnvD : Int → HttpOutcome := fun _ => .resp ⟨204, some []⟩

theorem C1_energy_stats_backward_search_witness :
    get_latest_energy_stats 7200 c1Session c1EnvR c1EnvA "dev"
      = (c1Session, .ok ⟨true, some ⟨-3600, 0, 5, 7⟩, none⟩, 4) ∧
    get_latest_energy_stats 7200 c1Session c1EnvR c1EnvB "dev"
      = (c1Session, .ok ⟨false, none, some "Max tries exceeded."⟩, 5) ∧
    get_latest_energy_stats 7200 c1Session c1EnvR c1EnvC "dev"
      = (c1Session, .ok ⟨false, none, some "Network error boom"⟩, 1) ∧
    get_latest_energy_stats 7200 c1Session c1EnvR c1EnvD "dev"
      = (c1Session, .ok ⟨false, none,
          some "_retrieve_hour_energy_stats() returned 204"⟩, 1) ∧
    get_latest_energy_stats 7200 c1Session2 c1EnvR2 c1EnvB "dev"
      = (c1Session2, .ok ⟨false, none, some "Invalid authentication."⟩, 1) := by
  exact C1_energy_stats_backward_search 7200 c1Session c1Session2 "dev"
    c1EnvR c1EnvR2 c1EnvA c1EnvB c1EnvC c1EnvD c1EnvB 5 7 "boom" ⟨204, some []⟩
    (by decide) rfl rfl rfl rfl rfl rfl rfl rfl rfl rfl rfl rfl
    (by decide) rfl rfl

theorem send_patch_snd (now : Int) (body : Json) (out : HttpOutcome) :
    (send_patch_request now body out).2
      = setKey body "last_sync_datetime_app" (.i (now * 1000)) := by
  cases out with
  | exn e => rfl
  | resp r =>
      simp only [send_patch_request]
      split_ifs <;> rfl

theorem send_patch_fail {now : Int} {body : Json} {out : HttpOutcome}
    {r : HttpResponse} (hp : out = .resp r)
    (hf : respTruthy r = false ∨ r.status_code ≠ 200) :
    (send_patch_request now body out).1 = ⟨false, none, none⟩ := by
  subst hp
  rcases hf with h | h
  · simp [send_patch_request, h]
  · by_cases h1 : respTruthy r
    · simp [send_patch_request, h1, h]
    · simp [send_patch_request, h1]

/-- C4: with a valid session, `set_hvac_mode(device, "off")` on a device in
"manual" mode issues exactly two PATCHes in order — first `{temp: 20}`, then
`{power: false, mode: "manual", status: "off"}` (each stamped with the
timestamp field) — returning the second PATCH's result; if the first PATCH
fails, the second is never issued and the first PATCH's failure result is
returned unchanged; on a device in "auto" mode a single PATCH
`{power: false, mode: "auto", status: "off"}` is issued. -/
theorem C4_set_hvac_off_sequencing
    (now : Int) (s : Session) (device : RointeDevice) (day hour : Nat)
    (refreshOut : HttpOutcome) (patch : Nat → HttpOutcome)
    (hv : validAt s now) :
    (device.mode = "auto" →
      set_device_mode now s device "off" day hour refreshOut patch
        = (s, .ok (send_patch_request now
              [("power", .b false), ("mode", .s "auto"), ("status", .s "off")]
              (patch 0)).1,
            [[("power", .b false), ("mode", .s "auto"), ("status", .s "off"),
              ("last_sync_datetime_app", .i (now * 1000))]])) ∧
    (device.mode = "manual" →
      (send_patch_request now [("temp", .i 20)] (patch 0)).1.success = false →
      set_device_mode now s device "off" day hour refreshOut patch
        = (s, .ok (send_patch_request now [("temp", .i 20)] (patch 0)).1,
            [[("temp", .i 20), ("last_sync_datetime_app", .i (now * 1000))]])) ∧
    (device.mode = "manual" →
      (send_patch_request now [("temp", .i 20)] (patch 0)).1.success = true →
      set_device_mode now s device "off" day hour refreshOut patch
        = (s, .ok (send_patch_request now
              [("power", .b false), ("mode", .s "manual"), ("status", .s "off")]
              (patch 1)).1,
            [[("temp", .i 20), ("last_sync_datetime_app", .i (now * 1000))],
             [("power", .b false), ("mode", .s "manual"), ("status", .s "off"),
              ("last_sync_datetime_app", .i (now * 1000))]])) := by
  refine ⟨?_, ?_, ?_⟩
  · intro hm
    simp [set_device_mode, ensure_valid_auth_noop _ hv, hm, send_patch_snd, setKey]
  · intro hm hf
    simp [set_device_mode, ensure_valid_auth_noop _ hv, hm, hf, send_patch_snd,
      setKey]
  · intro hm hf
    simp [set_device_mode, ensure_valid_auth_noop _ hv, hm, hf, send_patch_snd,
      setKey]

/-- Witness device currently in "auto" mode. -/
def devAuto : RointeDevice := ⟨"dev1", "auto", 21, 17, 7, false, ["CE"]⟩

/-- Witness device currently in "manual" mode. -/
def devMan : RointeDevice := ⟨"dev1", "manual", 21, 17, 7, false, ["CE"]⟩

/-- Witness PATCH environment: every PATCH succeeds with status 200. -/
def patchOK : Nat → HttpOutcome := fun _ => .resp ⟨200, some []⟩

/-- Witness PATCH environment: every PATCH gets a falsy 500 response. -/
def patchKO : Nat → HttpOutcome := fun _ => .resp ⟨500, some []⟩

theorem C4_set_hvac_off_sequencing_witness :
    set_device_mode 0 c1Session devAuto "off" 0 0 (.exn "u") patchOK
      = (c1Session, .ok ⟨true, none, none⟩,
          [[("power", .b false), ("mode", .s "auto"), ("status", .s "off"),
            ("last_sync_datetime_app", .i 0)]]) ∧
    set_device_mode 0 c1Session devMan "off" 0 0 (.exn "u") patchKO
      = (c1Session, .ok ⟨false, none, none⟩,
          [[("temp", .i 20), ("last_sync_datetime_app", .i 0)]]) ∧
    set_device_mode 0 c1Session devMan "off" 0 0 (.exn "u") patchOK
      = (c1Session, .ok ⟨true, none, none⟩,
          [[("temp", .i 20), ("last_sync_datetime_app", .i 0)],
           [("power", .b false), ("mode", .s "manual"), ("status", .s "off"),
            ("last_sync_datetime_app", .i 0)]]) :=
  ⟨(C4_set_hvac_off_sequencing 0 c1Session devAuto 0 0 (.exn "u") patchOK
      (by decide)).1 rfl,
   (C4_set_hvac_off_sequencing 0 c1Session devMan 0 0 (.exn "u") patchKO
      (by decide)).2.1 rfl rfl,
   (C4_set_hvac_off_sequencing 0 c1Session devMan 0 0 (.exn "u") patchOK
      (by decide)).2.2 rfl rfl⟩

/-- C10: with a valid session, when the PATCH underlying a command operation
(`set_device_temp`, `set_device_preset`, `set_device_mode`) receives a falsy
response or a non-200 status, the operation returns
`ApiResponse(False, None, None)`: success false, no data, and no error
message, unlike the descriptive errors of the read operations. -/
theorem C10_command_patch_failure
    (now : Int) (s : Session) (device : RointeDevice) (new_temp : Int)
    (preset day hour : _) (refreshOut : HttpOutcome)
    (patch : Nat → HttpOutcome) (r : HttpResponse) (m : ScheduleMode)
    (hv : validAt s now) (hp : patch 0 = .resp r)
    (hf : respTruthy r = false ∨ r.status_code ≠ 200) :
    (set_device_temp now s device new_temp refreshOut patch).2.1
      = .ok ⟨false, none, none⟩ ∧
    (set_device_preset now s device preset refreshOut patch).2.1
      = .ok ⟨false, none, none⟩ ∧
    (set_device_mode now s device "off" day hour refreshOut patch).2.1
      = .ok ⟨false, none, none⟩ ∧
    (set_device_mode now s device "heat" day hour refreshOut patch).2.1
      = .ok ⟨false, none, none⟩ ∧
    (get_current_schedule_mode device day hour = .ok m →
      (set_device_mode now s device "auto" day hour refreshOut patch).2.1
        = .ok ⟨false, none, none⟩) := by
  have hfail : ∀ body : Json,
      (send_patch_request now body (patch 0)).1 = ⟨false, none, none⟩ :=
    fun _ => send_patch_fail hp hf
  refine ⟨?_, ?_, ?_, ?_, ?_⟩
  · simp [set_device_temp, ensure_valid_auth_noop _ hv, hfail]
  · simp [set_device_preset, ensure_valid_auth_noop _ hv, hfail]
  · by_cases hm : device.mode = "auto"
    · simp [set_device_mode, ensure_valid_auth_noop _ hv, hm, hfail]
    · simp [set_device_mode, ensure_valid_auth_noop _ hv, hm, hfail]
  · simp [set_device_mode, ensure_valid_auth_noop _ hv, hfail]
  · intro hs
    cases m <;>
      simp [set_device_mode, ensure_valid_auth_noop _ hv, hs, hfail]

theorem C10_command_patch_failure_witness :
    (set_device_temp 0 c1Session devMan 19 (.exn "u") patchKO).2.1
      = .ok ⟨false, none, none⟩ ∧
    (set_device_preset 0 c1Session devMan "eco" (.exn "u") patchKO).2.1
      = .ok ⟨false, none, none⟩ ∧
    (set_device_mode 0 c1Session devMan "off" 0 0 (.exn "u") patchKO).2.1
      = .ok ⟨false, none, none⟩ ∧
    (set_device_mode 0 c1Session devMan "heat" 0 0 (.exn "u") patchKO).2.1
      = .ok ⟨false, none, none⟩ ∧
    (set_device_mode 0 c1Session devMan "auto" 0 0 (.exn "u") patchKO).2.1
      = .ok ⟨false, none, none⟩ := by
  have h := C10_command_patch_failure 0 c1Session devMan 19 "eco" 0 0 (.exn "u")
    patchKO ⟨500, some []⟩ .COMFORT (by decide) rfl (by decide)
  exact ⟨h.1, h.2.1, h.2.2.1, h.2.2.2.1, h.2.2.2.2 rfl⟩

/-- C5: the claim maps preset "off" to the PATCH body
`{power: false, mode: "manual", temp: 20, status: "none"}` and says an
unknown preset causes no network call.  In the code `set_device_preset` has
no "off" branch (and matches "Anti-frost" capitalised), and the PATCH is
sent unconditionally: at the concrete inputs "off" and "banana" a single
PATCH is issued whose body holds only the timestamp — no power/temp keys —
refuting both the "off" mapping and the no-network-call claim. -/
theorem C5_set_preset_counterexample :
    set_device_preset 0 c1Session devMan "off" (.exn "u") patchOK
      = (c1Session, .ok ⟨true, none, none⟩,
          [[("last_sync_datetime_app", .i 0)]]) ∧
    set_device_preset 0 c1Session devMan "banana" (.exn "u") patchOK
      = (c1Session, .ok ⟨true, none, none⟩,
          [[("last_sync_datetime_app", .i 0)]]) ∧
    jlookup [("last_sync_datetime_app", JVal.i 0)] "power" = none ∧
    jlookup [("last_sync_datetime_app", JVal.i 0)] "temp" = none :=
  ⟨rfl, rfl, rfl, rfl⟩

/-- C5 (amended): with a valid session, `set_device_preset` always issues
exactly one PATCH whose body is determined by the preset: comfort →
`{power: true, mode: manual, temp: comfort_temp, status: comfort}`; eco →
`{… eco_temp, status: eco}`; the capitalised "Anti-frost" → `{… ice_temp,
status: ice}`; every other preset (including "off" and lowercase
"anti-frost") yields a PATCH carrying only the timestamp field — the
network call is still made. -/
theorem C5_set_preset_amended
    (now : Int) (s : Session) (device : RointeDevice) (preset_mode : String)
    (refreshOut : HttpOutcome) (patch : Nat → HttpOutcome)
    (hv : validAt s now) :
    (preset_mode = "comfort" →
      set_device_preset now s device preset_mode refreshOut patch
        = (s, .ok (send_patch_request now
              [("power", .b true), ("mode", .s "manual"),
               ("temp", .i device.comfort_temp), ("status", .s "comfort")]
              (patch 0)).1,
            [[("power", .b true), ("mode", .s "manual"),
              ("temp", .i device.comfort_temp), ("status", .s "comfort"),
              ("last_sync_datetime_app", .i (now * 1000))]])) ∧
    (preset_mode = "eco" →
      set_device_preset now s device preset_mode refreshOut patch
        = (s, .ok (send_patch_request now
              [("power", .b true), ("mode", .s "manual"),
               ("temp", .i device.eco_temp), ("status", .s "eco")]
              (patch 0)).1,
            [[("power", .b true), ("mode", .s "manual"),
              ("temp", .i device.eco_temp), ("status", .s "eco"),
              ("last_sync_datetime_app", .i (now * 1000))]])) ∧
    (preset_mode = "Anti-frost" →
      set_device_preset now s device preset_mode refreshOut patch
        = (s, .ok (send_patch_request now
              [("power", .b true), ("mode", .s "manual"),
               ("temp", .i device.ice_temp), ("status", .s "ice")]
              (patch 0)).1,
            [[("power", .b true), ("mode", .s "manual"),
              ("temp", .i device.ice_temp), ("status", .s "ice"),
              ("last_sync_datetime_app", .i (now * 1000))]])) ∧
    (preset_mode ≠ "comfort" → preset_mode ≠ "eco" → preset_mode ≠ "Anti-frost" →
      set_device_preset now s device preset_mode refreshOut patch
        = (s, .ok (send_patch_request now [] (patch 0)).1,
            [[("last_sync_datetime_app", .i (now * 1000))]])) := by
  refine ⟨?_, ?_, ?_, ?_⟩
  · intro hp
    simp [set_device_preset, ensure_valid_auth_noop _ hv, hp, send_patch_snd,
      setKey]
  · intro hp
    simp [set_device_preset, ensure_valid_auth_noop _ hv, hp, send_patch_snd,
      setKey]
  · intro hp
    simp [set_device_preset, ensure_valid_auth_noop _ hv, hp, send_patch_snd,
      setKey]
  · intro h1 h2 h3
    simp [set_device_preset, ensure_valid_auth_noop _ hv, h1, h2, h3,
      send_patch_snd, setKey]

theorem C5_set_preset_amended_witness :
    set_device_preset 0 c1Session devMan "comfort" (.exn "u") patchOK
      = (c1Session, .ok ⟨true, none, none⟩,
          [[("power", .b true), ("mode", .s "manual"), ("temp", .i 21),
            ("status", .s "comfort"), ("last_sync_datetime_app", .i 0)]]) ∧
    set_device_preset 0 c1Session devMan "eco" (.exn "u") patchOK
      = (c1Session, .ok ⟨true, none, none⟩,
          [[("power", .b true), ("mode", .s "manual"), ("temp", .i 17),
            ("status", .s "eco"), ("last_sync_datetime_app", .i 0)]]) ∧
    set_device_preset 0 c1Session devMan "Anti-frost" (.exn "u") patchOK
      = (c1Session, .ok ⟨true, none, none⟩,
          [[("power", .b true), ("mode", .s "manual"), ("temp", .i 7),
            ("status", .s "ice"), ("last_sync_datetime_app", .i 0)]]) ∧
    set_device_preset 0 c1Session devMan "off" (.exn "u") patchOK
      = (c1Session, .ok ⟨true, none, none⟩,
          [[("last_sync_datetime_app", .i 0)]]) :=
  ⟨(C5_set_preset_amended 0 c1Session devMan "comfort" (.exn "u") patchOK
      (by decide)).1 rfl,
   (C5_set_preset_amended 0 c1Session devMan "eco" (.exn "u") patchOK
      (by decide)).2.1 rfl,
   (C5_set_preset_amended 0 c1Session devMan "Anti-frost" (.exn "u") patchOK
      (by decide)).2.2.1 rfl,
   (C5_set_preset_amended 0 c1Session devMan "off" (.exn "u") patchOK
      (by decide)).2.2.2 (by decide) (by decide) (by decide)⟩

/-- The session invariant of the claim: access and refresh tokens are both
present or both absent. -/
def tokensConsistent (s : Session) : Bool :=
  s.auth_token.isSome == s.refresh_token.isSome

/-- A refresh response is well-formed: whenever it is a 200 whose JSON body
carries `id_token`, it also carries an integer `expires_in` and a
`refresh_token`.  Under this proviso `_refresh_token` never raises and its
session write is all-or-nothing. -/
def goodRefresh (out : HttpOutcome) : Prop :=
  ∀ r j, out = .resp r → r.status_code = 200 → r.json = some j →
    (jlookup j "id_token").isSome →
    ∃ ei n rt, jlookup j "expires_in" = some ei ∧ pyInt ei = some n ∧
      jlookup j "refresh_token" = some rt

theorem refresh_atomic {now : Int} {s : Session} {out : HttpOutcome}
    (hg : goodRefresh out) :
    (refresh_token_step now s out).1 = s ∨
    ∃ t ex rt, (refresh_token_step now s out).1
      = { s with
            auth_token := some t,
            auth_token_expire_date := some ex,
            refresh_token := some rt } := by
  cases out with
  | exn e => exact .inl rfl
  | resp r =>
      by_cases h1 : respTruthy r
      swap
      · left; simp [refresh_token_step, h1]
      by_cases h2 : r.status_code = 200
      swap
      · left; simp [refresh_token_step, h1, h2]
      rcases hj : r.json with _ | j
      · left; simp [refresh_token_step, h1, h2, hj]
      by_cases h3 : j.isEmpty ∨ (jlookup j "id_token").isNone
      · left
        simp only [refresh_token_step, h1, h2, hj]
        rw [if_pos h3]
        simp
      · push_neg at h3
        rcases hid : jlookup j "id_token" with _ | idt
        · exact absurd (Option.isNone_iff_eq_none.mpr hid) h3.2
        · obtain ⟨ei, n, rt, hei, hn, hrt⟩ :=
            hg r j rfl h2 hj (by rw [hid]; rfl)
          right
          refine ⟨idt, now + n, rt, ?_⟩
          simp only [refresh_token_step, h1, h2, hj, hid, hei, hn, hrt]
          simp [h3.1, h3.2]

theorem refresh_consistent {now : Int} {s : Session} {out : HttpOutcome}
    (hc : tokensConsistent s = true) (hg : goodRefresh out) :
    tokensConsistent (refresh_token_step now s out).1 = true := by
  rcases @refresh_atomic now s out hg with h | ⟨t, ex, rt, h⟩ <;>
    rw [h]
  · exact hc
  · simp [tokensConsistent]

theorem ensure_session_cases (now : Int) (s : Session) (out : HttpOutcome) :
    (ensure_valid_auth now s out).session = s ∨
    (ensure_valid_auth now s out).session = (refresh_token_step now s out).1 := by
  unfold ensure_valid_auth
  split_ifs
  · rcases h : refresh_token_step now s out with ⟨s1, res⟩
    rcases res with e | rv
    · right; simp
    · right
      by_cases ht : rv.truthy <;> simp [ht]
  · left; rfl

theorem ensure_consistent {now : Int} {s : Session} {out : HttpOutcome}
    (hc : tokensConsistent s = true) (hg : goodRefresh out) :
    tokensConsistent (ensure_valid_auth now s out).session = true := by
  rcases ensure_session_cases now s out with h | h <;> rw [h]
  · exact hc
  · exact refresh_consistent hc hg

theorem get_local_id_session (now : Int) (s : Session) (rout gout : HttpOutcome) :
    (get_local_id now s rout gout).1 = (ensure_valid_auth now s rout).session := by
  unfold get_local_id
  rcases h : ensure_valid_auth now s rout with ⟨s1, res, c⟩
  rcases res with e | b
  · rfl
  · cases b
    · rfl
    · cases gout with
      | exn e => rfl
      | resp r =>
          repeat' split
          all_goals simp_all

theorem get_installations_session (now : Int) (s : Session)
    (rout gout : HttpOutcome) :
    (get_installations now s rout gout).1
      = (ensure_valid_auth now s rout).session := by
  unfold get_installations
  rcases h : ensure_valid_auth now s rout with ⟨s1, res, c⟩
  rcases res with e | b
  · rfl
  · cases b
    · rfl
    · cases gout with
      | exn e => rfl
      | resp r =>
          repeat' split
          all_goals simp_all

theorem get_installation_by_id_session (now : Int) (s : Session)
    (instId : String) (rout gout : HttpOutcome) :
    (get_installation_by_id now s instId rout gout).1
      = (ensure_valid_auth now s rout).session := by
  unfold get_installation_by_id
  rcases h : ensure_valid_auth now s rout with ⟨s1, res, c⟩
  rcases res with e | b
  · rfl
  · cases b
    · rfl
    · cases gout with
      | exn e => rfl
      | resp r =>
          repeat' split
          all_goals simp_all

theorem get_device_session (now : Int) (s : Session) (rout gout : HttpOutcome) :
    (get_device now s rout gout).1 = (ensure_valid_auth now s rout).session := by
  unfold get_device
  rcases h : ensure_valid_auth now s rout with ⟨s1, res, c⟩
  rcases res with e | b
  · rfl
  · cases b
    · rfl
    · cases gout with
      | exn e => rfl
      | resp r =>
          repeat' split
          all_goals simp_all

theorem retrieve_session (now : Int) (s : Session) (rout gout : HttpOutcome)
    (target : Int) :
    (retrieve_hour_energy_stats now s rout gout target).1
      = (ensure_valid_auth now s rout).session := by
  unfold retrieve_hour_energy_stats
  rcases h : ensure_valid_auth now s rout with ⟨s1, res, c⟩
  rcases res with e | b
  · rfl
  · cases b
    · rfl
    · cases gout with
      | exn e => rfl
      | resp r =>
          repeat' split
          all_goals simp_all

theorem set_device_temp_session (now : Int) (s : Session)
    (device : RointeDevice) (new_temp : Int) (rout : HttpOutcome)
    (patch : Nat → HttpOutcome) :
    (set_device_temp now s device new_temp rout patch).1
      = (ensure_valid_auth now s rout).session := by
  unfold set_device_temp
  rcases h : ensure_valid_auth now s rout with ⟨s1, res, c⟩
  rcases res with e | b
  · rfl
  · cases b
    · rfl
    · repeat' split
      all_goals simp_all

theorem set_device_preset_session (now : Int) (s : Session)
    (device : RointeDevice) (preset : String) (rout : HttpOutcome)
    (patch : Nat → HttpOutcome) :
    (set_device_preset now s device preset rout patch).1
      = (ensure_valid_auth now s rout).session := by
  unfold set_device_preset
  rcases h : ensure_valid_auth now s rout with ⟨s1, res, c⟩
  rcases res with e | b
  · rfl
  · cases b
    · rfl
    · repeat' split
      all_goals simp_all

theorem set_device_mode_session (now : Int) (s : Session)
    (device : RointeDevice) (hvac : String) (day hour : Nat)
    (rout : HttpOutcome) (patch : Nat → HttpOutcome) :
    (set_device_mode now s device hvac day hour rout patch).1
      = (ensure_valid_auth now s rout).session := by
  unfold set_device_mode
  rcases h : ensure_valid_auth now s rout with ⟨s1, res, c⟩
  rcases res with e | b
  · rfl
  · cases b
    · rfl
    · repeat' split
      all_goals simp_all
      all_goals (split <;> rfl)

theorem loop_consistent (now : Int) (envR envG : Int → HttpOutcome)
    (hgE : ∀ t, goodRefresh (envR t)) :
    ∀ (n : Nat) (s : Session) (target : Int), tokensConsistent s = true →
      tokensConsistent (energy_stats_loop now envR envG n s target).1 = true := by
  intro n
  induction n with
  | zero => intro s t hc; exact hc
  | succ n ih =>
      intro s t hc
      have hc1 : tokensConsistent
          (retrieve_hour_energy_stats now s (envR t) (envG t) t).1 = true := by
        rw [retrieve_session]
        exact ensure_consistent hc (hgE t)
      conv_lhs => rw [energy_stats_loop]
      rcases hstep : retrieve_hour_energy_stats now s (envR t) (envG t) t
        with ⟨s1, res⟩
      rw [hstep] at hc1
      rcases res with e | resp
      · exact hc1
      · dsimp only
        by_cases hmsg : resp.error_message = some "No energy stats found."
        · rw [if_pos hmsg]
          have h2 := ih s1 (t - 3600) hc1
          rcases hrec : energy_stats_loop now envR envG n s1 (t - 3600)
            with ⟨s2, r2, c2⟩
          rw [hrec] at h2
          exact h2
        · rw [if_neg hmsg]
          exact hc1

theorem initialize_atomic (now : Int) (s : Session) (loginOut : HttpOutcome) :
    (initialize_authentication now s loginOut).1 = s ∨
    (initialize_authentication now s loginOut).1
      = { s with auth_token := none, refresh_token := none } ∨
    ∃ t ex rt, (initialize_authentication now s loginOut).1
      = { s with
            auth_token := some t,
            refresh_token := some rt,
            auth_token_expire_date := some ex,
            username := none,
            password := none } := by
  unfold initialize_authentication
  rcases login_user now loginOut with e | resp
  · exact .inl rfl
  · by_cases hs : resp.success
    · rcases hd : resp.data with _ | d
      · simp [hs, hd]
      · right; right
        exact ⟨d.auth_token, d.expires, d.refresh_token, by simp [hs, hd]⟩
    · simp [hs]

theorem initialize_consistent {now : Int} {s : Session} {loginOut : HttpOutcome}
    (hc : tokensConsistent s = true) :
    tokensConsistent (initialize_authentication now s loginOut).1 = true := by
  rcases initialize_atomic now s loginOut with h | h | ⟨t, ex, rt, h⟩ <;> rw [h]
  · exact hc
  · simp [tokensConsistent]
  · simp [tokensConsistent]

/-- C6: the claim says every operation preserves the both-present-or-both-
absent token invariant AND that all session writes are atomic groups, even
when a refresh response contains `id_token` but lacks `expires_in` or
`refresh_token`.  Refuted at a concrete input: starting from the empty
session, a 200 refresh response whose JSON is exactly `{"id_token": "new"}`
makes `_refresh_token` set `auth_token` and then raise
`KeyError("expires_in")`, leaving a partially-written session in which
`auth_token` is present while `refresh_token` is absent. -/
theorem C6_session_invariant_counterexample :
    refresh_token_step 0 ⟨some "u", some "p", none, none, none⟩
        (.resp ⟨200, some [("id_token", .s "new")]⟩)
      = (⟨some "u", some "p", none, some (.s "new"), none⟩,
          .error (.keyError "expires_in")) ∧
    tokensConsistent ⟨some "u", some "p", none, none, none⟩ = true ∧
    tokensConsistent ⟨some "u", some "p", none, some (.s "new"), none⟩ = false :=
  ⟨rfl, rfl, rfl⟩

/-- C6 (amended): provided every refresh response that is a 200 carrying
`id_token` also carries an integer `expires_in` and a `refresh_token` key,
every operation preserves the invariant that access and refresh tokens are
both present or both absent, and the session writes are atomic:
`_refresh_token` either leaves the session unchanged or replaces all three
fields, and `initialize_authentication` (for any outcome) leaves the session
unchanged, clears both tokens together, or replaces all three fields while
discarding the credentials.  Without that proviso the partial write of the
counterexample is reachable. -/
theorem C6_session_invariant_amended
    (now : Int) (s : Session) (loginOut refreshOut getOut : HttpOutcome)
    (envR envG : Int → HttpOutcome) (patch : Nat → HttpOutcome)
    (device : RointeDevice) (deviceId instId preset hvac : String)
    (new_temp : Int) (target : Int) (day hour : Nat)
    (hc : tokensConsistent s = true)
    (hg : goodRefresh refreshOut) (hgE : ∀ t, goodRefresh (envR t)) :
    tokensConsistent (initialize_authentication now s loginOut).1 = true ∧
    ((initialize_authentication now s loginOut).1 = s ∨
      (initialize_authentication now s loginOut).1
        = { s with auth_token := none, refresh_token := none } ∨
      ∃ t ex rt, (initialize_authentication now s loginOut).1
        = { s with
              auth_token := some t,
              refresh_token := some rt,
              auth_token_expire_date := some ex,
              username := none,
              password := none }) ∧
    tokensConsistent (refresh_token_step now s refreshOut).1 = true ∧
    ((refresh_token_step now s refreshOut).1 = s ∨
      ∃ t ex rt, (refresh_token_step now s refreshOut).1
        = { s with
              auth_token := some t,
              auth_token_expire_date := some ex,
              refresh_token := some rt }) ∧
    tokensConsistent (ensure_valid_auth now s refreshOut).session = true ∧
    tokensConsistent (get_local_id now s refreshOut getOut).1 = true ∧
    tokensConsistent (get_installations now s refreshOut getOut).1 = true ∧
    tokensConsistent (get_installation_by_id now s instId refreshOut getOut).1
      = true ∧
    tokensConsistent (get_device now s refreshOut getOut).1 = true ∧
    tokensConsistent
      (retrieve_hour_energy_stats now s refreshOut getOut target).1 = true ∧
    tokensConsistent (get_latest_energy_stats now s envR envG deviceId).1
      = true ∧
    tokensConsistent (set_device_temp now s device new_temp refreshOut patch).1
      = true ∧
    tokensConsistent (set_device_preset now s device preset refreshOut patch).1
      = true ∧
    tokensConsistent
      (set_device_mode now s device hvac day hour refreshOut patch).1 = true := by
  have hens := @ensure_consistent now s refreshOut hc hg
  refine ⟨initialize_consistent hc, initialize_atomic now s loginOut,
    refresh_consistent hc hg, refresh_atomic hg, hens, ?_, ?_, ?_, ?_, ?_, ?_,
    ?_, ?_, ?_⟩
  · rw [get_local_id_session]; exact hens
  · rw [get_installations_session]; exact hens
  · rw [get_installation_by_id_session]; exact hens
  · rw [get_device_session]; exact hens
  · rw [retrieve_session]; exact hens
  · exact loop_consistent now envR envG hgE ENERGY_STATS_MAX_TRIES s
      (hourFloor now) hc
  · rw [set_device_temp_session]; exact hens
  · rw [set_device_preset_session]; exact hens
  · rw [set_device_mode_session]; exact hens

/-- Witness login outcome: a well-formed 200 credential response. -/
def c6Login : HttpOutcome :=
  .resp ⟨200, some [("idToken", .s "tok"), ("expiresIn", .i 3600),
    ("refreshToken", .s "r")]⟩

/-- Witness refresh outcome carrying all three expected fields. -/
def c6Refresh : HttpOutcome :=
  .resp ⟨200, some [("id_token", .s "n"), ("expires_in", .i 3600),
    ("refresh_token", .s "r2")]⟩

/-- Witness GET outcome. -/
def c6Get : HttpOutcome := .resp ⟨200, some []⟩

/-- Witness refresh environment. -/
def c6EnvR : Int → HttpOutcome := fun _ => c6Refresh

/-- Witness energy GET environment. -/
def c6EnvG : Int → HttpOutcome := fun _ => c6Get

theorem goodRefresh_c6 : goodRefresh c6Refresh := by
  intro r j hr h200 hj hid
  simp only [c6Refresh] at hr
  injection hr with h
  subst h
  simp only [Option.some.injEq] at hj
  subst hj
  exact ⟨.i 3600, 3600, .s "r2", rfl, rfl, rfl⟩

theorem C6_session_invariant_amended_witness :
    tokensConsistent (initialize_authentication 0 c1Session c6Login).1 = true ∧
    ((initialize_authentication 0 c1Session c6Login).1 = c1Session ∨
      (initialize_authentication 0 c1Session c6Login).1
        = { c1Session with auth_token := none, refresh_token := none } ∨
      ∃ t ex rt, (initialize_authentication 0 c1Session c6Login).1
        = { c1Session with
              auth_token := some t,
              refresh_token := some rt,
              auth_token_expire_date := some ex,
              username := none,
              password := none }) ∧
    tokensConsistent (refresh_token_step 0 c1Session c6Refresh).1 = true ∧
    ((refresh_token_step 0 c1Session c6Refresh).1 = c1Session ∨
      ∃ t ex rt, (refresh_token_step 0 c1Session c6Refresh).1
        = { c1Session with
              auth_token := some t,
              auth_token_expire_date := some ex,
              refresh_token := some rt }) ∧
    tokensConsistent (ensure_valid_auth 0 c1Session c6Refresh).session = true ∧
    tokensConsistent (get_local_id 0 c1Session c6Refresh c6Get).1 = true ∧
    tokensConsistent (get_installations 0 c1Session c6Refresh c6Get).1 = true ∧
    tokensConsistent
      (get_installation_by_id 0 c1Session "inst" c6Refresh c6Get).1 = true ∧
    tokensConsistent (get_device 0 c1Session c6Refresh c6Get).1 = true ∧
    tokensConsistent
      (retrieve_hour_energy_stats 0 c1Session c6Refresh c6Get 0).1 = true ∧
    tokensConsistent (get_latest_energy_stats 0 c1Session c6EnvR c6EnvG "dev").1
      = true ∧
    tokensConsistent (set_device_temp 0 c1Session devMan 19 c6Refresh patchOK).1
      = true ∧
    tokensConsistent
      (set_device_preset 0 c1Session devMan "eco" c6Refresh patchOK).1 = true ∧
    tokensConsistent
      (set_device_mode 0 c1Session devMan "off" 0 0 c6Refresh patchOK).1
      = true :=
  C6_session_invariant_amended 0 c1Session c6Login c6Refresh c6Get c6EnvR c6EnvG
    patchOK devMan "dev" "inst" "eco" "off" 19 0 0 0 rfl goodRefresh_c6
    (fun _ => goodRefresh_c6)

theorem login_failure_reasons {now : Int} {out : HttpOutcome}
    {resp : ApiResponse LoginData}
    (hl : login_user now out = .ok resp) (hs : resp.success = false) :
    (∃ e, resp.error_message = some ("Network error " ++ e)) ∨
    resp.error_message = some "invalid_auth" ∨
    resp.error_message = some "response_invalid" ∨
    resp.error_message = some "invalid_auth_response" := by
  cases out with
  | exn e =>
      simp only [login_user] at hl
      injection hl with h
      subst h
      exact .inl ⟨e, rfl⟩
  | resp r =>
      simp only [login_user] at hl
      by_cases h400 : r.status_code = 400
      · rw [if_pos h400] at hl
        injection hl with h; subst h
        exact .inr (.inl rfl)
      · rw [if_neg h400] at hl
        by_cases h200 : r.status_code = 200
        swap
        · rw [if_pos h200] at hl
          injection hl with h; subst h
          exact .inr (.inr (.inl rfl))
        · rw [if_neg (fun hc => hc h200)] at hl
          rcases hj : r.json with _ | j
          · rw [hj] at hl; simp at hl
          · rw [hj] at hl
            dsimp only at hl
            by_cases hempty : j.isEmpty ∨ (jlookup j "idToken").isNone
            · rw [if_pos hempty] at hl
              injection hl with h; subst h
              exact .inr (.inr (.inr rfl))
            · rw [if_neg hempty] at hl
              rcases hid : jlookup j "idToken" with _ | idt
              · rw [hid] at hl
                injection hl with h; subst h
                exact .inr (.inr (.inr rfl))
              · rw [hid] at hl
                dsimp only at hl
                rcases hei : jlookup j "expiresIn" with _ | ei
                · rw [hei] at hl; simp at hl
                · rw [hei] at hl
                  dsimp only at hl
                  rcases hn : pyInt ei with _ | n
                  · rw [hn] at hl; simp at hl
                  · rw [hn] at hl
                    dsimp only at hl
                    rcases hrt : jlookup j "refreshToken" with _ | rt
                    · rw [hrt] at hl; simp at hl
                    · rw [hrt] at hl
                      injection hl with h; subst h
                      simp at hs

/-- C7: the claim says a failing authenticate fully clears the session
(access token, refresh token AND expiry all absent) with a reason drawn from
cannot_connect / invalid_auth / invalid_auth_response.  At the concrete
input — a previously authenticated session and a 500 login response —
the code clears only the two tokens, leaves the stored expiry in place, and
reports "response_invalid", which is not in the claimed set. -/
theorem C7_authenticate_failure_counterexample :
    initialize_authentication 0
        ⟨some "u", some "p", some (.s "r"), some (.s "t"), some 99⟩
        (.resp ⟨500, some []⟩)
      = (⟨some "u", some "p", none, none, some 99⟩,
          .ok ⟨false, none, some "response_invalid"⟩) ∧
    (⟨some "u", some "p", none, none, some 99⟩ : Session).auth_token_expire_date
      = some 99 ∧
    ("response_invalid" ≠ "cannot_connect" ∧
      "response_invalid" ≠ "invalid_auth" ∧
      "response_invalid" ≠ "invalid_auth_response") :=
  ⟨rfl, rfl, by decide⟩

/-- C7 (amended): whenever the login step returns a failure result (network
exception, HTTP 400, any other non-200 status, or a parsed body lacking
idToken), `initialize_authentication` clears `auth_token` and
`refresh_token` (leaving the stored expiry, username and password as they
were) and returns a failure whose reason is one of "Network error {e}",
"invalid_auth", "response_invalid", "invalid_auth_response". -/
theorem C7_authenticate_failure_amended
    (now : Int) (s : Session) (loginOut : HttpOutcome)
    (resp : ApiResponse LoginData)
    (hl : login_user now loginOut = .ok resp) (hs : resp.success = false) :
    initialize_authentication now s loginOut
      = ({ s with auth_token := none, refresh_token := none },
          .ok ⟨false, none, resp.error_message⟩) ∧
    ((∃ e, resp.error_message = some ("Network error " ++ e)) ∨
      resp.error_message = some "invalid_auth" ∨
      resp.error_message = some "response_invalid" ∨
      resp.error_message = some "invalid_auth_response") := by
  constructor
  · simp only [initialize_authentication, hl]
    simp [hs]
  · exact login_failure_reasons hl hs

theorem C7_authenticate_failure_amended_witness :
    initialize_authentication 0
        ⟨some "u", some "p", some (.s "r"), some (.s "t"), some 99⟩
        (.resp ⟨500, some []⟩)
      = (⟨some "u", some "p", none, none, some 99⟩,
          .ok ⟨false, none, some "response_invalid"⟩) ∧
    ((∃ e, (some "response_invalid" : Option String)
        = some ("Network error " ++ e)) ∨
      (some "response_invalid" : Option String) = some "invalid_auth" ∨
      (some "response_invalid" : Option String) = some "response_invalid" ∨
      (some "response_invalid" : Option String) = some "invalid_auth_response") :=
  C7_authenticate_failure_amended 0
    ⟨some "u", some "p", some (.s "r"), some (.s "t"), some 99⟩
    (.resp ⟨500, some []⟩) ⟨false, none, some "response_invalid"⟩ rfl rfl

/-- C9: the claim says every successful authenticate is followed by an
`ensure_valid` that makes zero network calls.  At the concrete input where
the provider returns an empty-string idToken, `initialize_authentication`
succeeds (the key is present), but the stored token is falsy, so the very
next `_ensure_valid_auth` invokes `_refresh_token` — one network call. -/
theorem C9_roundtrip_counterexample :
    initialize_authentication 0 (Session.init "u" "p")
        (.resp ⟨200, some [("idToken", .s ""), ("expiresIn", .i 3600),
          ("refreshToken", .s "r")]⟩)
      = (⟨none, none, some (.s "r"), some (.s ""), some 3600⟩,
          .ok ⟨true, none, none⟩) ∧
    (ensure_valid_auth 0 ⟨none, none, some (.s "r"), some (.s ""), some 3600⟩
        (.exn "net")).refreshCalls = 1 :=
  ⟨rfl, rfl⟩

/-- C9 (amended): for every successful authenticate whose provider response
carries a truthy (non-empty) idToken and a non-negative TTL, an immediately
following `ensure_valid` (evaluated at the same time) returns true and makes
zero network calls. -/
theorem C9_roundtrip_amended
    (now : Int) (s : Session) (loginOut out2 : HttpOutcome) (j : Json)
    (idt ei rt : JVal) (n : Int)
    (hout : loginOut = .resp ⟨200, some j⟩)
    (hid : jlookup j "idToken" = some idt)
    (hidT : jvalTruthy idt = true)
    (hei : jlookup j "expiresIn" = some ei)
    (hn : pyInt ei = some n) (h0 : 0 ≤ n)
    (hrt : jlookup j "refreshToken" = some rt) :
    (initialize_authentication now s loginOut).2 = .ok ⟨true, none, none⟩ ∧
    ensure_valid_auth now (initialize_authentication now s loginOut).1 out2
      = ⟨(initialize_authentication now s loginOut).1, .ok true, 0⟩ := by
  subst hout
  have hj : ¬ (j.isEmpty = true ∨ (jlookup j "idToken").isNone = true) := by
    push_neg
    constructor
    · intro hh
      rw [List.isEmpty_iff] at hh
      subst hh
      simp [jlookup] at hid
    · rw [hid]
      simp
  have hlogin : login_user now (.resp ⟨200, some j⟩)
      = .ok ⟨true, some ⟨idt, now + n, rt⟩, none⟩ := by
    simp only [login_user]
    rw [if_neg (by simp), if_neg (by simp)]
    rw [if_neg hj, hid]
    dsimp only
    rw [hei]
    dsimp only
    rw [hn]
    dsimp only
    rw [hrt]
  have hinit : initialize_authentication now s (.resp ⟨200, some j⟩)
      = ({ s with
            auth_token := some idt,
            refresh_token := some rt,
            auth_token_expire_date := some (now + n),
            username := none,
            password := none }, .ok ⟨true, none, none⟩) := by
    simp only [initialize_authentication, hlogin]
    simp
  rw [hinit]
  refine ⟨rfl, ensure_valid_auth_noop out2 ⟨by simp [tokenTruthy, hidT], ?_⟩⟩
  intro hcon
  have := hcon.2
  simp at this
  omega

theorem C9_roundtrip_amended_witness :
    (initialize_authentication 0 (Session.init "u" "p") c6Login).2
      = .ok ⟨true, none, none⟩ ∧
    ensure_valid_auth 0
        (initialize_authentication 0 (Session.init "u" "p") c6Login).1
        (.exn "net")
      = ⟨(initialize_authentication 0 (Session.init "u" "p") c6Login).1,
          .ok true, 0⟩ :=
  C9_roundtrip_amended 0 (Session.init "u" "p") c6Login (.exn "net")
    [("idToken", .s "tok"), ("expiresIn", .i 3600), ("refreshToken", .s "r")]
    (.s "tok") (.i 3600) (.s "r") 3600 rfl rfl rfl rfl rfl (by decide) rfl
